import Mathlib

/-!
Shallow embedding of the CGO proposal workflow (`src/workflow.py`) and proofs
about its recommendation engine, fetch phases, quote assembly and orchestrator.

External HTTP calls are modelled by an oracle (`Env`) that fixes the outcome of
every call a single run can make; Python exceptions are modelled by `PyExc`
with results in `Except PyExc`.  Successful JSON responses are modelled with
the fields the code actually reads.
-/

set_option maxRecDepth 4000

/-- Python exception classes relevant to the workflow.  `requests` raises
`HTTPError` from `raise_for_status`; timeouts and connection problems raise
other `RequestException` subclasses that are never `HTTPError`; a malformed
JSON body raises a JSON decode error.  The workflow's `except` clauses catch
only `requests.HTTPError`. -/
inductive PyExc where
  | httpError (status : Nat)
  | timeoutError
  | connectionError
  | jsonDecodeError
deriving DecidableEq, Repr

/-- Whether a call outcome is a success or an `HTTPError` — the only exception
class any `except` clause in `workflow.py` catches. -/
def httpOnly {α : Type} : Except PyExc α → Bool
  | .ok _ => true
  | .error (.httpError _) => true
  | .error _ => false

/-- One catalog row of the `SERVICES` table in `workflow.py`. -/
structure Service where
  sku : String
  name : String
  price : Nat
  description : String
deriving DecidableEq, Repr

instance : Inhabited Service := ⟨⟨"", "", 0, ""⟩⟩

/-- The `SERVICES` constant of `workflow.py`, verbatim. -/
def SERVICES : List Service := [
  ⟨"CGO-MKTOPS", "Marketing Operations Consulting", 3000,
    "Lead scoring, segmentation, campaign orchestration, ABM strategy"⟩,
  ⟨"CGO-SALESOPS", "Sales Operations Consulting", 3000,
    "Sales enablement, pipeline optimization, lead scoring"⟩,
  ⟨"CGO-CRM", "CRM Management", 2000,
    "Weekly hotfixes, data quality monitoring, ad-hoc reporting"⟩,
  ⟨"CGO-DATA", "Ongoing Data Enrichment", 1500,
    "1 custom signal + ICP monthly enrichment"⟩,
  ⟨"CGO-EMAIL", "Email Outreach Automation", 1500,
    "Cold email infrastructure and campaign execution"⟩,
  ⟨"CGO-LINKEDIN", "LinkedIn Outreach Automation", 1500,
    "LinkedIn prospecting automation"⟩,
  ⟨"CGO-BUNDLE", "CGO Bundle (Full)", 12000,
    "All services included"⟩]

/-- The `PAIN_POINT_MAP` constant of `workflow.py`, verbatim (sku ↦ indicator
phrases). -/
def PAIN_POINT_MAP : List (String × List String) := [
  ("CGO-CRM", ["hubspot underutilized", "crm", "data silo", "logging", "data quality",
               "duplicates", "messy data", "hubspot help", "custom properties",
               "reporting", "dashboards"]),
  ("CGO-MKTOPS", ["marketing automation", "lead scoring", "campaigns", "abm",
                  "marketing attribution", "visitor identification", "website traffic",
                  "de-anonymize", "lead qualification", "mql", "nurture"]),
  ("CGO-SALESOPS", ["sales enablement", "pipeline", "sequences", "sales process",
                    "forecasting", "sales team", "quota", "opportunity", "deal velocity",
                    "win rate", "sales handoff"]),
  ("CGO-DATA", ["data enrichment", "target market data", "contacts", "validation",
                "lead lists", "icp data", "firmographic", "technographic",
                "buying signals", "intent data", "clay"]),
  ("CGO-EMAIL", ["email campaign", "cold email", "deliverability", "outreach",
                 "email sequences", "prospecting email", "spam", "email warmup",
                 "open rates", "reply rates"]),
  ("CGO-LINKEDIN", ["linkedin campaign", "linkedin outreach", "social selling",
                    "linkedin prospecting", "connection requests", "inmail",
                    "linkedin automation", "social"])]

/-- Decides whether `needle` occurs at the start of `hay`. -/
def leadsWith : List Char → List Char → Bool
  | [], _ => true
  | _ :: _, [] => false
  | a :: as, b :: bs => a == b && leadsWith as bs

/-- Decides whether `needle` occurs as a contiguous substring of `hay`
(Python `needle in hay`). -/
def hasSub (needle : List Char) : List Char → Bool
  | [] => leadsWith needle []
  | b :: bs => leadsWith needle (b :: bs) || hasSub needle bs

/-- Python `text.lower()` on the character sequence of a string. -/
def lowerChars (s : String) : List Char := s.data.map Char.toLower

/-- The score loop of `_recommend_from_transcript`: `score += 2` for every
indicator phrase contained in the lowered transcript text. -/
def skuScore (text_lower : List Char) (inds : List String) : Nat :=
  inds.foldl (fun score ind => if hasSub ind.data text_lower then score + 2 else score) 0

/-- Embedding of `_recommend_from_transcript` (workflow.py lines 150–163):
lower the text, skip the `CGO-BUNDLE` key, keep every sku whose score is ≥ 2.
The Python function returns the qualifying skus as a `set`; we return them as
a duplicate-free list in `PAIN_POINT_MAP` key order (only membership, unions
and cardinality of the set are consumed downstream). -/
def recommend_from_transcript (text : String) : List String :=
  (PAIN_POINT_MAP.filter
    (fun p => !(p.1 == "CGO-BUNDLE") && decide (2 ≤ skuScore (lowerChars text) p.2))).map
    Prod.fst

/-- The `all_skus` accumulation of `recommend_services`: the union over all
transcripts of each transcript's qualifying-sku set, kept as a duplicate-free
list (append only the members not already present). -/
def allQualifyingSkus (transcripts : List String) : List String :=
  transcripts.foldl
    (fun acc t => acc ++ (recommend_from_transcript t).filter (fun s => !acc.contains s)) []

/-- Embedding of `recommend_services` (workflow.py lines 166–180): with 4 or
more distinct qualifying skus return the bundle row alone with total 12000,
otherwise the catalog rows whose sku qualifies, with total the sum of their
prices. -/
def recommend_services (transcripts : List String) : List Service × Nat :=
  let all_skus := allQualifyingSkus transcripts
  if 4 ≤ all_skus.length then
    (SERVICES.filter (fun s => s.sku == "CGO-BUNDLE"), 12000)
  else
    let recommended := SERVICES.filter (fun s => all_skus.contains s.sku)
    (recommended, (recommended.map Service.price).sum)

/-- Maximal digit run at the head of a character list, with the remainder.
This implements greedy `\d+`; since a digit and the following literal `/` are
disjoint, greedy matching without backtracking is equivalent to the regex
engine's behaviour here. -/
def takeDigits : List Char → List Char × List Char
  | [] => ([], [])
  | c :: rest =>
    if c.isDigit then
      let p := takeDigits rest
      (c :: p.1, p.2)
    else ([], c :: rest)

/-- Drops the literal `lit` from the head of `l`, if present. -/
def dropLit : List Char → List Char → Option (List Char)
  | [], l => some l
  | _ :: _, [] => none
  | p :: ps, c :: cs => if p == c then dropLit ps cs else none

/-- Attempts the pattern `contacts/(d+)/record/0-3/(d+)` at the head of `l`,
returning the two digit capture groups. -/
def matchDealAt (l : List Char) : Option (String × String) := do
  let r1 ← dropLit "contacts/".data l
  let (d1, r2) := takeDigits r1
  if d1.isEmpty then none else
  let r3 ← dropLit "/record/0-3/".data r2
  let (d2, _) := takeDigits r3
  if d2.isEmpty then none else
  some (String.mk d1, String.mk d2)

/-- Leftmost match of the deal pattern anywhere in the list (`re.search`). -/
def searchDeal : List Char → Option (String × String)
  | [] => none
  | c :: rest =>
    match matchDealAt (c :: rest) with
    | some r => some r
    | none => searchDeal rest

/-- Embedding of `parse_deal_url` (workflow.py lines 52–58): `re.search` of
the deal-URL pattern over the input, returning (portal id, deal id). -/
def parse_deal_url (url : String) : Option (String × String) := searchDeal url.data

/-- Fields of the deal JSON that `run_workflow` reads: `properties.dealname`
(absence modelled as `none`; the code reads it with `.get` and a default), and
the company and contact ids listed under `associations`. -/
structure Deal where
  dealname : Option String
  companyIds : List String
  contactIds : List String

/-- Fields of a company JSON that the workflow reads (`properties.name`).
Successful responses are modelled as well-formed. -/
structure Company where
  name : String
deriving DecidableEq

/-- One fetched contact record; its content is never read by `run_workflow`,
only collected. -/
structure Contact where
  id : String
deriving DecidableEq

/-- Oracle fixing the configuration and the outcome of every external call one
run can make.  Per-item calls are functions of the distinguishing request
datum: company/contact fetches of the record id, meeting fetches of the
meeting id, line-item creation of the product id, the line-item association of
the line-item id.  `meetingAssoc` yields the `toObjectId` fields of the
deal→meetings association rows (`none` for a missing/falsy id); `meeting`
yields a meeting's `hs_internal_meeting_notes`, already defaulted to the empty
string when absent, as in the code; `products` yields the `(hs_sku, id)` rows
of the product listing.  The narrative-generation calls and the request bodies
built from their text influence control flow only through success or failure,
so their outcomes are oracle fields. -/
structure Env where
  hubspot_api_key : Option String
  hubspot_portal_id : Option String
  anthropic_api_key : Option String
  deal : Except PyExc Deal
  company : String → Except PyExc Company
  contact : String → Except PyExc Contact
  meetingAssoc : Except PyExc (List (Option String))
  meeting : String → Except PyExc String
  products : Except PyExc (List (Option String × String))
  claudeSummary : Except PyExc String
  claudePreview : Except PyExc String
  createQuote : Except PyExc String
  createLineItem : String → Except PyExc String
  assocLineItem : String → Except PyExc Unit

/-- Embedding of `fetch_companies` (workflow.py lines 89–99): each id fetched
in order; an `HTTPError` for one id is swallowed and that record omitted; any
other exception propagates, since the `except` clause catches only
`requests.HTTPError`. -/
def fetch_companies (env : Env) : List String → Except PyExc (List Company)
  | [] => .ok []
  | cid :: rest =>
    match env.company cid with
    | .ok c =>
      match fetch_companies env rest with
      | .ok cs => .ok (c :: cs)
      | .error e => .error e
    | .error (.httpError _) => fetch_companies env rest
    | .error e => .error e

/-- Embedding of `fetch_contacts` (workflow.py lines 102–112), same tolerant
per-id policy as `fetch_companies`. -/
def fetch_contacts (env : Env) : List String → Except PyExc (List Contact)
  | [] => .ok []
  | cid :: rest =>
    match env.contact cid with
    | .ok c =>
      match fetch_contacts env rest with
      | .ok cs => .ok (c :: cs)
      | .error e => .error e
    | .error (.httpError _) => fetch_contacts env rest
    | .error e => .error e

/-- Marker test of `fetch_fathom_transcripts`: the notes must contain one of
the two (case-sensitive) Fathom provenance markers. -/
def isFathomNotes (notes : String) : Bool :=
  hasSub "AI Meeting Summary".data notes.data || hasSub "Generated by Fathom".data notes.data

/-- Per-meeting loop of `fetch_fathom_transcripts` over the association rows:
rows with a missing `toObjectId` are skipped, a per-meeting `HTTPError` is
swallowed, any other exception propagates, and only notes carrying a Fathom
marker are kept, in order. -/
def fathomLoop (env : Env) : List (Option String) → Except PyExc (List String)
  | [] => .ok []
  | none :: rest => fathomLoop env rest
  | some mid :: rest =>
    match env.meeting mid with
    | .ok notes =>
      match fathomLoop env rest with
      | .ok ts => .ok (if isFathomNotes notes then notes :: ts else ts)
      | .error e => .error e
    | .error (.httpError _) => fathomLoop env rest
    | .error e => .error e

/-- Embedding of `fetch_fathom_transcripts` (workflow.py lines 115–136): an
`HTTPError` listing the deal→meetings associations yields the empty transcript
list; any other exception propagates; otherwise the per-meeting loop runs. -/
def fetch_fathom_transcripts (env : Env) : Except PyExc (List String) :=
  match env.meetingAssoc with
  | .ok results => fathomLoop env results
  | .error (.httpError _) => .ok []
  | .error e => .error e

/-- Embedding of `fetch_products` (workflow.py lines 139–147): build the
sku ↦ product-id rows from the listing, skipping rows with no `hs_sku`.  Any
exception propagates (the function has no `except` clause). -/
def fetch_products (env : Env) : Except PyExc (List (String × String)) :=
  match env.products with
  | .ok rows => .ok (rows.filterMap (fun r => r.1.map (fun sku => (sku, r.2))))
  | .error e => .error e

/-- Python `dict` lookup for the sku→id mapping built by `fetch_products`: the
last binding of a key wins, as later dict assignments overwrite earlier ones. -/
def dictGet (d : List (String × String)) (k : String) : Option String :=
  ((d.filter (fun p => p.1 == k)).map Prod.snd).getLast?

/-- Per-service loop of `create_quote_and_line_items` (workflow.py lines
269–283): a service whose sku resolves to no product id is skipped
(`continue`); for a resolved service the line-item creation and its quote
association are blocking writes with no `try` around them, so any exception
propagates out of the loop. -/
def lineItemLoop (env : Env) (sku_to_id : List (String × String)) :
    List Service → Except PyExc Unit
  | [] => .ok ()
  | svc :: rest =>
    match dictGet sku_to_id svc.sku with
    | none => lineItemLoop env sku_to_id rest
    | some pid =>
      match env.createLineItem pid with
      | .ok li =>
        match env.assocLineItem li with
        | .ok _ => lineItemLoop env sku_to_id rest
        | .error e => .error e
      | .error e => .error e

/-- Embedding of `create_quote_and_line_items` (workflow.py lines 232–285):
resolve the product catalog (step 1), create the quote (step 2), create and
associate one line item per resolved service (step 3), and return the quote
URL.  No step inside this function is wrapped in a `try`, so any exception
from any step propagates to the caller.  The quote body (title, expiration,
terms, narrative HTML) does not influence control flow and is abstracted into
the `createQuote` oracle outcome. -/
def create_quote_and_line_items (env : Env) (portal_id _deal_id _company_name : String)
    (services : List Service) : Except PyExc String :=
  match fetch_products env with
  | .error e => .error e
  | .ok sku_to_id =>
    match env.createQuote with
    | .error e => .error e
    | .ok quote_id =>
      match lineItemLoop env sku_to_id services with
      | .error e => .error e
      | .ok _ =>
        .ok ("https://app.hubspot.com/contacts/" ++ portal_id ++ "/record/0-115/" ++ quote_id)

/-- Terminal outcome of one `run_workflow` invocation, one constructor per
`return` site of workflow.py lines 288–354 (each Python return is a dict with
`success` plus either an `error` message or the success payload):
`configError` for the two missing-credential messages (lines 297, 299);
`invalidUrl` for the unparseable deal URL (line 303); `portalMismatch` when
the URL portal differs from the configured one (line 306); `dealFetchError`
for an `HTTPError` fetching the deal (line 311); `noTranscripts` when no
Fathom summaries were found (lines 324–328); `claudeError` for an `HTTPError`
from a narrative call (line 338); `quoteError` for an `HTTPError` during quote
assembly (line 346); `success` for the success dict (lines 348–354). -/
inductive WRes where
  | configError (msg : String)
  | invalidUrl
  | portalMismatch (urlPortal configured : String)
  | dealFetchError (e : PyExc)
  | noTranscripts
  | claudeError (e : PyExc)
  | quoteError (e : PyExc)
  | success (quote_url company_name : String) (total_monthly : Nat) (serviceNames : List String)
deriving DecidableEq, Repr

/-- Spec error taxonomy (§7): ValidationError — reference string unparsable or
tenant mismatch. -/
def WRes.isValidationError : WRes → Bool
  | .invalidUrl => true
  | .portalMismatch _ _ => true
  | _ => false

/-- Spec error taxonomy (§7): UpstreamError — a CRM or narrative-generation
call used in a fatal phase failed. -/
def WRes.isUpstreamError : WRes → Bool
  | .dealFetchError _ => true
  | .claudeError _ => true
  | .quoteError _ => true
  | _ => false

/-- Spec error taxonomy (§7): PreconditionFailed — no qualifying discovery
transcripts found. -/
def WRes.isPreconditionFailed : WRes → Bool
  | .noTranscripts => true
  | _ => false

/-- Python truthiness of an optional environment string: `not value` holds for
both a missing variable and the empty string. -/
def falsyEnvStr : Option String → Bool
  | none => true
  | some s => s == ""

/-- Quote-assembly step of `run_workflow` (lines 340–346 plus the success
return, lines 348–354): quote assembly runs under a `try` that catches only
`requests.HTTPError` and turns it into the quote-error outcome. -/
def quotePhase (env : Env) (portal_id deal_id company_name : String)
    (sv : List Service × Nat) : Except PyExc WRes :=
  match create_quote_and_line_items env portal_id deal_id company_name sv.1 with
  | .ok quote_url => .ok (.success quote_url company_name sv.2 (sv.1.map Service.name))
  | .error (.httpError s) => .ok (.quoteError (.httpError s))
  | .error e => .error e

/-- Narrative-generation step of `run_workflow` (lines 334–338): the two
Claude calls run in sequence under one `try` that catches only
`requests.HTTPError` and turns it into the Claude-error outcome. -/
def claudePhase (env : Env) (portal_id deal_id company_name : String)
    (sv : List Service × Nat) : Except PyExc WRes :=
  match env.claudeSummary with
  | .error (.httpError s) => .ok (.claudeError (.httpError s))
  | .error e => .error e
  | .ok _ =>
    match env.claudePreview with
    | .error (.httpError s) => .ok (.claudeError (.httpError s))
    | .error e => .error e
    | .ok _ => quotePhase env portal_id deal_id company_name sv

/-- Transcript and recommendation step of `run_workflow` (lines 323–332): an
empty transcript list short-circuits to the no-transcripts outcome; an empty
recommendation falls back to `[SERVICES[0]]` with total 3000. -/
def transcriptPhase (env : Env) (portal_id deal_id company_name : String) :
    Except PyExc WRes :=
  match fetch_fathom_transcripts env with
  | .error e => .error e
  | .ok transcripts =>
    if transcripts.isEmpty then .ok .noTranscripts
    else
      let rec0 := recommend_services transcripts
      claudePhase env portal_id deal_id company_name
        (if rec0.1.isEmpty then ([SERVICES.headD default], 3000) else rec0)

/-- Deal, company and contact step of `run_workflow` (lines 308–321): an
`HTTPError` fetching the deal is the deal-fetch outcome; the company list's
head (or the deal name) becomes the display name. -/
def dealPhase (env : Env) (portal_id deal_id : String) : Except PyExc WRes :=
  match env.deal with
  | .error (.httpError s) => .ok (.dealFetchError (.httpError s))
  | .error e => .error e
  | .ok deal =>
    match fetch_companies env deal.companyIds with
    | .error e => .error e
    | .ok companies =>
      match fetch_contacts env deal.contactIds with
      | .error e => .error e
      | .ok _contacts =>
        transcriptPhase env portal_id deal_id
          (match companies with
           | c :: _ => c.name
           | [] => deal.dealname.getD "Unknown Deal")

/-- The pipeline of `run_workflow` after the configuration checks
(workflow.py lines 301–354), phase by phase in the order of the code. -/
def run_core (env : Env) (portal_id : String) (deal_url : String) : Except PyExc WRes :=
  match parse_deal_url deal_url with
  | none => .ok .invalidUrl
  | some (url_portal, deal_id) =>
    if url_portal != portal_id then .ok (.portalMismatch url_portal portal_id)
    else dealPhase env portal_id deal_id

/-- Embedding of `run_workflow` (workflow.py lines 288–354).  A `.ok r` is the
returned result dict; a `.error e` is an exception escaping the invocation —
no handler inside `run_workflow` catches any exception class other than
`requests.HTTPError`. -/
def run_workflow (env : Env) (deal_url : String) : Except PyExc WRes :=
  if falsyEnvStr env.hubspot_api_key || falsyEnvStr env.hubspot_portal_id then
    .ok (.configError "HUBSPOT_API_KEY and HUBSPOT_PORTAL_ID must be set")
  else if falsyEnvStr env.anthropic_api_key then
    .ok (.configError "ANTHROPIC_API_KEY must be set for AI generation")
  else
    run_core env (env.hubspot_portal_id.getD "") deal_url

/-- Concrete Fathom-marked meeting notes with two CRM-pain indicator phrases
(`crm`, `data quality`) and two sales-pipeline indicator phrases (`pipeline`,
`forecasting`). -/
def fathomNote1 : String :=
  "AI Meeting Summary: crm data quality concerns; pipeline forecasting is weak"

/-- Concrete Fathom-marked meeting notes with two CRM-pain indicator phrases
(`crm`, `duplicates`) and two sales-pipeline indicator phrases (`pipeline`,
`forecasting`). -/
def fathomNote2 : String :=
  "Generated by Fathom: our crm has duplicates and the pipeline forecasting needs work"

/-- Base oracle for concrete runs: configuration present, every call succeeds,
one company, one contact, two Fathom meetings whose notes hit the CRM and
sales-ops indicators. -/
def envBase : Env where
  hubspot_api_key := some "key"
  hubspot_portal_id := some "21656838"
  anthropic_api_key := some "anth"
  deal := .ok ⟨some "Acme Deal", ["c1"], ["p1"]⟩
  company := fun _ => .ok ⟨"Acme"⟩
  contact := fun i => .ok ⟨i⟩
  meetingAssoc := .ok [some "m1", some "m2"]
  meeting := fun m => if m == "m1" then .ok fathomNote1 else .ok fathomNote2
  products := .ok [(some "CGO-SALESOPS", "prod-salesops"), (some "CGO-CRM", "prod-crm"),
                   (some "CGO-MKTOPS", "prod-mktops")]
  claudeSummary := .ok "summary html"
  claudePreview := .ok "preview html"
  createQuote := .ok "q77"
  createLineItem := fun p => .ok ("li-" ++ p)
  assocLineItem := fun _ => .ok ()


/-- Configuration under which `run_workflow` passes the credential checks with
`portal` as the configured portal id. -/
def ConfigOk (env : Env) (portal : String) : Prop :=
  falsyEnvStr env.hubspot_api_key = false ∧
  env.hubspot_portal_id = some portal ∧ portal ≠ "" ∧
  falsyEnvStr env.anthropic_api_key = false

/-- Every upstream call outcome the oracle can produce is either a success or
an `HTTPError` — no timeout, connection failure or malformed-response error. -/
def EnvHttpOnly (env : Env) : Prop :=
  httpOnly env.deal = true ∧
  (∀ id, httpOnly (env.company id) = true) ∧
  (∀ id, httpOnly (env.contact id) = true) ∧
  httpOnly env.meetingAssoc = true ∧
  (∀ m, httpOnly (env.meeting m) = true) ∧
  httpOnly env.products = true ∧
  httpOnly env.claudeSummary = true ∧
  httpOnly env.claudePreview = true ∧
  httpOnly env.createQuote = true ∧
  (∀ p, httpOnly (env.createLineItem p) = true) ∧
  (∀ li, httpOnly (env.assocLineItem li) = true)

/-- Indicator list of a sku in `PAIN_POINT_MAP` (empty for an unknown sku). -/
def skuIndicators (sku : String) : List String := (PAIN_POINT_MAP.lookup sku).getD []

/-- Oracle variant: the product-catalog listing (quote-assembly step 1) fails
with an HTTP 500; everything else as in `envBase`. -/
def envProductsFail : Env := { envBase with products := .error (.httpError 500) }

/-- Oracle variant: the deal fetch raises a request timeout (not an
`HTTPError`). -/
def envTimeout : Env := { envBase with deal := .error .timeoutError }

/-- Oracle variant: listing the deal→meetings associations fails with an HTTP
404, so the transcript fetch yields no transcripts. -/
def envNoTrans : Env := { envBase with meetingAssoc := .error (.httpError 404) }

/-- Oracle variant: Fathom-marked notes that contain no pain-point indicator
phrase, so no sku qualifies. -/
def envNoQual : Env :=
  { envBase with meeting := fun _ => .ok "AI Meeting Summary: nothing of note" }

/-- Oracle variant: the record id `bad` fails with an HTTP 500 on both the
company and the contact endpoint; every other id succeeds. -/
def envOneBad : Env :=
  { envBase with
    company := fun i => if i == "bad" then .error (.httpError 500) else .ok ⟨i⟩,
    contact := fun i => if i == "bad" then .error (.httpError 500) else .ok ⟨i⟩ }

/-- Oracle variant: the quote-creation write (quote-assembly step 2) fails
with an HTTP 500; everything else as in `envBase`. -/
def envQuoteFail : Env := { envBase with createQuote := .error (.httpError 500) }

/-- Oracle variant: every line-item creation (quote-assembly step 3) fails
with an HTTP 502; everything else as in `envBase`. -/
def envLineItemFail : Env :=
  { envBase with createLineItem := fun _ => .error (.httpError 502) }

/-- Oracle variant: every line-item quote association (quote-assembly step 3)
fails with an HTTP 503; everything else as in `envBase`. -/
def envAssocFail : Env :=
  { envBase with assocLineItem := fun _ => .error (.httpError 503) }

/-! ### Helper lemmas -/


lemma run_workflow_eq_core (env : Env) (portal url : String) (h : ConfigOk env portal) :
    run_workflow env url = run_core env portal url := by
  obtain ⟨h1, h2, h3, h4⟩ := h
  unfold run_workflow
  rw [h1, h2, h4]
  simp [falsyEnvStr, h3]

lemma foldl_score (p : String → Bool) (l : List String) (a : Nat) :
    l.foldl (fun score ind => if p ind then score + 2 else score) a = a + 2 * l.countP p := by
  induction l generalizing a with
  | nil => simp
  | cons x xs ih =>
    by_cases h : p x = true
    · simp [List.countP_cons, h, ih]
      omega
    · simp [List.countP_cons, h, ih]

lemma skuScore_eq (tl : List Char) (inds : List String) :
    skuScore tl inds = 2 * inds.countP (fun ind => hasSub ind.data tl) := by
  unfold skuScore
  rw [foldl_score]
  ring

lemma no_bundle_key : ∀ p ∈ PAIN_POINT_MAP, p.1 ≠ "CGO-BUNDLE" := by decide

lemma mem_recommend_from_transcript (t : String) (sku : String) :
    sku ∈ recommend_from_transcript t ↔
      ∃ p ∈ PAIN_POINT_MAP, p.1 = sku ∧
        ∃ ind ∈ p.2, hasSub ind.data (lowerChars t) = true := by
  unfold recommend_from_transcript
  simp only [List.mem_map, List.mem_filter]
  constructor
  · rintro ⟨p, ⟨hp, hcond⟩, rfl⟩
    refine ⟨p, hp, rfl, ?_⟩
    rw [Bool.and_eq_true] at hcond
    have h2 : 2 ≤ skuScore (lowerChars t) p.2 := of_decide_eq_true hcond.2
    rw [skuScore_eq] at h2
    have hpos : 0 < p.2.countP (fun ind => hasSub ind.data (lowerChars t)) := by omega
    obtain ⟨ind, hind, hh⟩ := List.countP_pos_iff.1 hpos
    exact ⟨ind, hind, hh⟩
  · rintro ⟨p, hp, rfl, ind, hind, hh⟩
    refine ⟨p, ⟨hp, ?_⟩, rfl⟩
    have hb : (p.1 == "CGO-BUNDLE") = false := by
      have hne := no_bundle_key p hp
      simpa using hne
    have hs : 2 ≤ skuScore (lowerChars t) p.2 := by
      rw [skuScore_eq]
      have hpos : 0 < p.2.countP (fun ind => hasSub ind.data (lowerChars t)) :=
        List.countP_pos_iff.2 ⟨ind, hind, hh⟩
      omega
    simp [hb, hs]

lemma pain_keys_nodup : (PAIN_POINT_MAP.map Prod.fst).Nodup := by decide

lemma recommend_from_transcript_nodup (t : String) : (recommend_from_transcript t).Nodup := by
  unfold recommend_from_transcript
  exact pain_keys_nodup.sublist ((List.filter_sublist _).map Prod.fst)

lemma not_bundle_mem_recommend (t : String) : "CGO-BUNDLE" ∉ recommend_from_transcript t := by
  intro h
  obtain ⟨p, hp, hps, -⟩ := (mem_recommend_from_transcript t _).1 h
  exact no_bundle_key p hp hps

lemma mem_unionFold (f : String → List String) (l : List String) (acc : List String)
    (x : String) :
    x ∈ l.foldl (fun acc t => acc ++ (f t).filter (fun s => !acc.contains s)) acc ↔
      x ∈ acc ∨ ∃ t ∈ l, x ∈ f t := by
  induction l generalizing acc with
  | nil => simp
  | cons h tl ih =>
    rw [List.foldl_cons, ih]
    have hstep : x ∈ acc ++ (f h).filter (fun s => !acc.contains s) ↔ x ∈ acc ∨ x ∈ f h := by
      rw [List.mem_append, List.mem_filter]
      constructor
      · rintro (hx | ⟨hx, -⟩)
        · exact Or.inl hx
        · exact Or.inr hx
      · rintro (hx | hx)
        · exact Or.inl hx
        · by_cases hacc : x ∈ acc
          · exact Or.inl hacc
          · refine Or.inr ⟨hx, ?_⟩
            have hcf : acc.contains x = false := by
              cases hcc : acc.contains x with
              | false => rfl
              | true => exact absurd (List.elem_iff.mp hcc) hacc
            rw [hcf]
            rfl
    rw [hstep]
    constructor
    · rintro ((hx | hx) | ⟨t, ht, hx⟩)
      · exact Or.inl hx
      · exact Or.inr ⟨h, by simp, hx⟩
      · exact Or.inr ⟨t, by simp [ht], hx⟩
    · rintro (hx | ⟨t, ht, hx⟩)
      · exact Or.inl (Or.inl hx)
      · rcases List.mem_cons.1 ht with rfl | ht2
        · exact Or.inl (Or.inr hx)
        · exact Or.inr ⟨t, ht2, hx⟩

lemma mem_allQualifyingSkus (ts : List String) (x : String) :
    x ∈ allQualifyingSkus ts ↔ ∃ t ∈ ts, x ∈ recommend_from_transcript t := by
  unfold allQualifyingSkus
  rw [mem_unionFold]
  simp

lemma nodup_unionFold (f : String → List String) (hf : ∀ t, (f t).Nodup)
    (l : List String) (acc : List String) (hacc : acc.Nodup) :
    (l.foldl (fun acc t => acc ++ (f t).filter (fun s => !acc.contains s)) acc).Nodup := by
  induction l generalizing acc with
  | nil => simpa
  | cons h tl ih =>
    rw [List.foldl_cons]
    apply ih
    apply hacc.append ((hf h).filter _)
    intro a ha hafilter
    rw [List.mem_filter] at hafilter
    have hct : acc.contains a = true := List.elem_iff.mpr ha
    have hcf := hafilter.2
    rw [hct] at hcf
    exact absurd hcf (by decide)

lemma allQualifyingSkus_nodup (ts : List String) : (allQualifyingSkus ts).Nodup :=
  nodup_unionFold _ recommend_from_transcript_nodup ts [] (by simp)

lemma not_bundle_mem_allQualifyingSkus (ts : List String) :
    "CGO-BUNDLE" ∉ allQualifyingSkus ts := by
  intro h
  obtain ⟨t, -, hmem⟩ := (mem_allQualifyingSkus ts _).1 h
  exact not_bundle_mem_recommend t hmem

lemma fetch_companies_all_ok (env : Env) (r : String → Company) (ids : List String)
    (h : ∀ id ∈ ids, env.company id = .ok (r id)) :
    fetch_companies env ids = .ok (ids.map r) := by
  induction ids with
  | nil => rfl
  | cons id rest ih =>
    have h1 : env.company id = .ok (r id) := h id (by simp)
    have h2 := ih (fun i hi => h i (by simp [hi]))
    simp [fetch_companies, h1, h2]

lemma fetch_contacts_all_ok (env : Env) (r : String → Contact) (ids : List String)
    (h : ∀ id ∈ ids, env.contact id = .ok (r id)) :
    fetch_contacts env ids = .ok (ids.map r) := by
  induction ids with
  | nil => rfl
  | cons id rest ih =>
    have h1 : env.contact id = .ok (r id) := h id (by simp)
    have h2 := ih (fun i hi => h i (by simp [hi]))
    simp [fetch_contacts, h1, h2]

lemma fetch_companies_ok_of_httpOnly (env : Env) (ids : List String)
    (h : ∀ id, httpOnly (env.company id) = true) :
    ∃ l, fetch_companies env ids = .ok l := by
  induction ids with
  | nil => exact ⟨[], rfl⟩
  | cons id rest ih =>
    obtain ⟨l, hl⟩ := ih
    cases hc : env.company id with
    | ok c => exact ⟨c :: l, by simp [fetch_companies, hc, hl]⟩
    | error e =>
      have hh := h id
      rw [hc] at hh
      cases e with
      | httpError s => exact ⟨l, by simp [fetch_companies, hc, hl]⟩
      | timeoutError => simp [httpOnly] at hh
      | connectionError => simp [httpOnly] at hh
      | jsonDecodeError => simp [httpOnly] at hh

lemma fetch_contacts_ok_of_httpOnly (env : Env) (ids : List String)
    (h : ∀ id, httpOnly (env.contact id) = true) :
    ∃ l, fetch_contacts env ids = .ok l := by
  induction ids with
  | nil => exact ⟨[], rfl⟩
  | cons id rest ih =>
    obtain ⟨l, hl⟩ := ih
    cases hc : env.contact id with
    | ok c => exact ⟨c :: l, by simp [fetch_contacts, hc, hl]⟩
    | error e =>
      have hh := h id
      rw [hc] at hh
      cases e with
      | httpError s => exact ⟨l, by simp [fetch_contacts, hc, hl]⟩
      | timeoutError => simp [httpOnly] at hh
      | connectionError => simp [httpOnly] at hh
      | jsonDecodeError => simp [httpOnly] at hh

lemma fetch_companies_one_bad (env : Env) (rc : String → Company) (b : String) (s : Nat)
    (hb : env.company b = .error (.httpError s)) (l₁ l₂ : List String)
    (h : ∀ id ∈ l₁ ++ l₂, env.company id = .ok (rc id)) :
    fetch_companies env (l₁ ++ b :: l₂) = .ok ((l₁ ++ l₂).map rc) := by
  induction l₁ with
  | nil =>
    have h2 := fetch_companies_all_ok env rc l₂ (fun i hi => h i (by simpa using hi))
    simp [fetch_companies, hb, h2]
  | cons a rest ih =>
    have ha : env.company a = .ok (rc a) := h a (by simp)
    have h2 := ih (fun i hi => by
      apply h
      simp only [List.mem_append, List.mem_cons] at hi ⊢
      tauto)
    simp [fetch_companies, ha, h2]

lemma fetch_contacts_one_bad (env : Env) (rt : String → Contact) (b : String) (s : Nat)
    (hb : env.contact b = .error (.httpError s)) (l₁ l₂ : List String)
    (h : ∀ id ∈ l₁ ++ l₂, env.contact id = .ok (rt id)) :
    fetch_contacts env (l₁ ++ b :: l₂) = .ok ((l₁ ++ l₂).map rt) := by
  induction l₁ with
  | nil =>
    have h2 := fetch_contacts_all_ok env rt l₂ (fun i hi => h i (by simpa using hi))
    simp [fetch_contacts, hb, h2]
  | cons a rest ih =>
    have ha : env.contact a = .ok (rt a) := h a (by simp)
    have h2 := ih (fun i hi => by
      apply h
      simp only [List.mem_append, List.mem_cons] at hi ⊢
      tauto)
    simp [fetch_contacts, ha, h2]

lemma fathomLoop_ok_of_httpOnly (env : Env) (h : ∀ m, httpOnly (env.meeting m) = true)
    (rows : List (Option String)) : ∃ ts, fathomLoop env rows = .ok ts := by
  induction rows with
  | nil => exact ⟨[], rfl⟩
  | cons row rest ih =>
    obtain ⟨ts, hts⟩ := ih
    cases row with
    | none => exact ⟨ts, by simp [fathomLoop, hts]⟩
    | some mid =>
      cases hm : env.meeting mid with
      | ok notes =>
        exact ⟨if isFathomNotes notes then notes :: ts else ts, by simp [fathomLoop, hm, hts]⟩
      | error e =>
        have hh := h mid
        rw [hm] at hh
        cases e with
        | httpError s => exact ⟨ts, by simp [fathomLoop, hm, hts]⟩
        | timeoutError => simp [httpOnly] at hh
        | connectionError => simp [httpOnly] at hh
        | jsonDecodeError => simp [httpOnly] at hh

lemma fetch_fathom_ok_of_httpOnly (env : Env) (h1 : httpOnly env.meetingAssoc = true)
    (h2 : ∀ m, httpOnly (env.meeting m) = true) :
    ∃ ts, fetch_fathom_transcripts env = .ok ts := by
  cases ha : env.meetingAssoc with
  | ok rows =>
    obtain ⟨ts, hts⟩ := fathomLoop_ok_of_httpOnly env h2 rows
    exact ⟨ts, by simp [fetch_fathom_transcripts, ha, hts]⟩
  | error e =>
    rw [ha] at h1
    cases e with
    | httpError s => exact ⟨[], by simp [fetch_fathom_transcripts, ha]⟩
    | timeoutError => simp [httpOnly] at h1
    | connectionError => simp [httpOnly] at h1
    | jsonDecodeError => simp [httpOnly] at h1

lemma fetch_fathom_assoc_http_fail (env : Env) (s : Nat)
    (h : env.meetingAssoc = .error (.httpError s)) :
    fetch_fathom_transcripts env = .ok [] := by
  simp [fetch_fathom_transcripts, h]

lemma lineItemLoop_httpOnly (env : Env)
    (hc : ∀ p, httpOnly (env.createLineItem p) = true)
    (ha : ∀ li, httpOnly (env.assocLineItem li) = true)
    (d : List (String × String)) (svcs : List Service) :
    httpOnly (lineItemLoop env d svcs) = true := by
  induction svcs with
  | nil => rfl
  | cons svc rest ih =>
    cases hd : dictGet d svc.sku with
    | none => simpa [lineItemLoop, hd] using ih
    | some pid =>
      cases hcl : env.createLineItem pid with
      | ok li =>
        cases hal : env.assocLineItem li with
        | ok u => simpa [lineItemLoop, hd, hcl, hal] using ih
        | error e =>
          have hh := ha li
          rw [hal] at hh
          cases e with
          | httpError s => simp [lineItemLoop, hd, hcl, hal, httpOnly]
          | timeoutError => simp [httpOnly] at hh
          | connectionError => simp [httpOnly] at hh
          | jsonDecodeError => simp [httpOnly] at hh
      | error e =>
        have hh := hc pid
        rw [hcl] at hh
        cases e with
        | httpError s => simp [lineItemLoop, hd, hcl, httpOnly]
        | timeoutError => simp [httpOnly] at hh
        | connectionError => simp [httpOnly] at hh
        | jsonDecodeError => simp [httpOnly] at hh

lemma lineItemLoop_all_ok (env : Env)
    (hc : ∀ p, ∃ li, env.createLineItem p = .ok li)
    (ha : ∀ li, env.assocLineItem li = .ok ())
    (d : List (String × String)) (svcs : List Service) :
    lineItemLoop env d svcs = .ok () := by
  induction svcs with
  | nil => rfl
  | cons svc rest ih =>
    cases hd : dictGet d svc.sku with
    | none => simp [lineItemLoop, hd, ih]
    | some pid =>
      obtain ⟨li, hli⟩ := hc pid
      simp [lineItemLoop, hd, hli, ha li, ih]

lemma create_quote_httpOnly (env : Env)
    (hp : httpOnly env.products = true)
    (hq : httpOnly env.createQuote = true)
    (hc : ∀ p, httpOnly (env.createLineItem p) = true)
    (ha : ∀ li, httpOnly (env.assocLineItem li) = true)
    (portal_id deal_id cn : String) (svcs : List Service) :
    httpOnly (create_quote_and_line_items env portal_id deal_id cn svcs) = true := by
  cases hpr : env.products with
  | error e =>
    rw [hpr] at hp
    cases e with
    | httpError s => simp [create_quote_and_line_items, fetch_products, hpr, httpOnly]
    | timeoutError => simp [httpOnly] at hp
    | connectionError => simp [httpOnly] at hp
    | jsonDecodeError => simp [httpOnly] at hp
  | ok rows =>
    cases hcq : env.createQuote with
    | error e =>
      rw [hcq] at hq
      cases e with
      | httpError s =>
        simp [create_quote_and_line_items, fetch_products, hpr, hcq, httpOnly]
      | timeoutError => simp [httpOnly] at hq
      | connectionError => simp [httpOnly] at hq
      | jsonDecodeError => simp [httpOnly] at hq
    | ok q =>
      have hloop := lineItemLoop_httpOnly env hc ha
        (rows.filterMap (fun r => r.1.map (fun sku => (sku, r.2)))) svcs
      cases hl : lineItemLoop env (rows.filterMap (fun r => r.1.map (fun sku => (sku, r.2)))) svcs with
      | ok u => simp [create_quote_and_line_items, fetch_products, hpr, hcq, hl, httpOnly]
      | error e =>
        rw [hl] at hloop
        cases e with
        | httpError s =>
          simp [create_quote_and_line_items, fetch_products, hpr, hcq, hl, httpOnly]
        | timeoutError => simp [httpOnly] at hloop
        | connectionError => simp [httpOnly] at hloop
        | jsonDecodeError => simp [httpOnly] at hloop

lemma quotePhase_ok_of_httpOnly (env : Env) (portal_id deal_id cn : String)
    (sv : List Service × Nat)
    (h : httpOnly (create_quote_and_line_items env portal_id deal_id cn sv.1) = true) :
    ∃ r, quotePhase env portal_id deal_id cn sv = .ok r := by
  cases hc : create_quote_and_line_items env portal_id deal_id cn sv.1 with
  | ok u =>
    exact ⟨.success u cn sv.2 (sv.1.map Service.name), by simp [quotePhase, hc]⟩
  | error e =>
    rw [hc] at h
    cases e with
    | httpError s => exact ⟨.quoteError (.httpError s), by simp [quotePhase, hc]⟩
    | timeoutError => simp [httpOnly] at h
    | connectionError => simp [httpOnly] at h
    | jsonDecodeError => simp [httpOnly] at h

lemma claudePhase_ok_of_httpOnly (env : Env) (portal_id deal_id cn : String)
    (sv : List Service × Nat)
    (h1 : httpOnly env.claudeSummary = true) (h2 : httpOnly env.claudePreview = true)
    (hq : httpOnly (create_quote_and_line_items env portal_id deal_id cn sv.1) = true) :
    ∃ r, claudePhase env portal_id deal_id cn sv = .ok r := by
  cases hs : env.claudeSummary with
  | error e =>
    rw [hs] at h1
    cases e with
    | httpError s => exact ⟨.claudeError (.httpError s), by simp [claudePhase, hs]⟩
    | timeoutError => simp [httpOnly] at h1
    | connectionError => simp [httpOnly] at h1
    | jsonDecodeError => simp [httpOnly] at h1
  | ok u =>
    cases hp : env.claudePreview with
    | error e =>
      rw [hp] at h2
      cases e with
      | httpError s => exact ⟨.claudeError (.httpError s), by simp [claudePhase, hs, hp]⟩
      | timeoutError => simp [httpOnly] at h2
      | connectionError => simp [httpOnly] at h2
      | jsonDecodeError => simp [httpOnly] at h2
    | ok v =>
      obtain ⟨r, hr⟩ := quotePhase_ok_of_httpOnly env portal_id deal_id cn sv hq
      exact ⟨r, by simp [claudePhase, hs, hp, hr]⟩

lemma transcriptPhase_ok_of_httpOnly (env : Env) (portal_id deal_id cn : String)
    (hma : httpOnly env.meetingAssoc = true)
    (hm : ∀ m, httpOnly (env.meeting m) = true)
    (hs : httpOnly env.claudeSummary = true)
    (hpv : httpOnly env.claudePreview = true)
    (hp : httpOnly env.products = true)
    (hq : httpOnly env.createQuote = true)
    (hcl : ∀ p, httpOnly (env.createLineItem p) = true)
    (hal : ∀ li, httpOnly (env.assocLineItem li) = true) :
    ∃ r, transcriptPhase env portal_id deal_id cn = .ok r := by
  obtain ⟨ts, hts⟩ := fetch_fathom_ok_of_httpOnly env hma hm
  cases hempty : ts.isEmpty with
  | true => exact ⟨.noTranscripts, by simp [transcriptPhase, hts, hempty]⟩
  | false =>
    have hq2 := create_quote_httpOnly env hp hq hcl hal portal_id deal_id cn
      (if (recommend_services ts).1.isEmpty then ([SERVICES.headD default], 3000)
       else recommend_services ts).1
    obtain ⟨r, hr⟩ := claudePhase_ok_of_httpOnly env portal_id deal_id cn _ hs hpv hq2
    refine ⟨r, ?_⟩
    simpa [transcriptPhase, hts, hempty] using hr

lemma dealPhase_ok_of_httpOnly (env : Env) (portal_id deal_id : String)
    (hd : httpOnly env.deal = true)
    (hco : ∀ id, httpOnly (env.company id) = true)
    (hct : ∀ id, httpOnly (env.contact id) = true)
    (hma : httpOnly env.meetingAssoc = true)
    (hm : ∀ m, httpOnly (env.meeting m) = true)
    (hs : httpOnly env.claudeSummary = true)
    (hpv : httpOnly env.claudePreview = true)
    (hp : httpOnly env.products = true)
    (hq : httpOnly env.createQuote = true)
    (hcl : ∀ p, httpOnly (env.createLineItem p) = true)
    (hal : ∀ li, httpOnly (env.assocLineItem li) = true) :
    ∃ r, dealPhase env portal_id deal_id = .ok r := by
  cases hdl : env.deal with
  | error e =>
    rw [hdl] at hd
    cases e with
    | httpError s => exact ⟨.dealFetchError (.httpError s), by simp [dealPhase, hdl]⟩
    | timeoutError => simp [httpOnly] at hd
    | connectionError => simp [httpOnly] at hd
    | jsonDecodeError => simp [httpOnly] at hd
  | ok deal =>
    obtain ⟨cs, hcs⟩ := fetch_companies_ok_of_httpOnly env deal.companyIds hco
    obtain ⟨tts, hcts⟩ := fetch_contacts_ok_of_httpOnly env deal.contactIds hct
    cases cs with
    | nil =>
      obtain ⟨r, hr⟩ := transcriptPhase_ok_of_httpOnly env portal_id deal_id
        (deal.dealname.getD "Unknown Deal") hma hm hs hpv hp hq hcl hal
      exact ⟨r, by simp [dealPhase, hdl, hcs, hcts, hr]⟩
    | cons c rest =>
      obtain ⟨r, hr⟩ := transcriptPhase_ok_of_httpOnly env portal_id deal_id
        c.name hma hm hs hpv hp hq hcl hal
      exact ⟨r, by simp [dealPhase, hdl, hcs, hcts, hr]⟩


lemma run_core_ok_of_httpOnly (env : Env) (portal url : String) (h : EnvHttpOnly env) :
    ∃ r, run_core env portal url = .ok r := by
  obtain ⟨hd, hco, hct, hma, hm, hp, hs, hpv, hq, hcl, hal⟩ := h
  cases hparse : parse_deal_url url with
  | none => exact ⟨.invalidUrl, by simp [run_core, hparse]⟩
  | some pr =>
    obtain ⟨up, did⟩ := pr
    by_cases hbne : (up != portal) = true
    · exact ⟨.portalMismatch up portal, by simp [run_core, hparse, hbne]⟩
    · obtain ⟨r, hr⟩ :=
        dealPhase_ok_of_httpOnly env portal did hd hco hct hma hm hs hpv hp hq hcl hal
      exact ⟨r, by simp [run_core, hparse, hbne, hr]⟩

lemma run_workflow_ok_of_httpOnly (env : Env) (url : String) (h : EnvHttpOnly env) :
    ∃ r, run_workflow env url = .ok r := by
  unfold run_workflow
  by_cases h1 : (falsyEnvStr env.hubspot_api_key || falsyEnvStr env.hubspot_portal_id) = true
  · exact ⟨.configError "HUBSPOT_API_KEY and HUBSPOT_PORTAL_ID must be set", by simp [h1]⟩
  · by_cases h2 : falsyEnvStr env.anthropic_api_key = true
    · exact ⟨.configError "ANTHROPIC_API_KEY must be set for AI generation", by simp [h1, h2]⟩
    · obtain ⟨r, hr⟩ := run_core_ok_of_httpOnly env (env.hubspot_portal_id.getD "") url h
      exact ⟨r, by simp [h1, h2, hr]⟩

lemma run_workflow_to_transcriptPhase (env : Env) (portal url deal_id : String) (d : Deal)
    (hcfg : ConfigOk env portal)
    (hp : parse_deal_url url = some (portal, deal_id))
    (hdeal : env.deal = .ok d)
    (hco : ∀ id, httpOnly (env.company id) = true)
    (hct : ∀ id, httpOnly (env.contact id) = true) :
    ∃ cn, run_workflow env url = transcriptPhase env portal deal_id cn := by
  rw [run_workflow_eq_core env portal url hcfg]
  obtain ⟨cs, hcs⟩ := fetch_companies_ok_of_httpOnly env d.companyIds hco
  obtain ⟨tts, hcts⟩ := fetch_contacts_ok_of_httpOnly env d.contactIds hct
  cases cs with
  | nil =>
    exact ⟨d.dealname.getD "Unknown Deal",
      by simp [run_core, hp, dealPhase, hdeal, hcs, hcts]⟩
  | cons c rest =>
    exact ⟨c.name, by simp [run_core, hp, dealPhase, hdeal, hcs, hcts]⟩

lemma recommend_services_empty (ts : List String) (h : allQualifyingSkus ts = []) :
    recommend_services ts = ([], 0) := by
  simp [recommend_services, h]

lemma recommend_services_bundle (ts : List String) (h : 4 ≤ (allQualifyingSkus ts).length) :
    recommend_services ts =
      ([⟨"CGO-BUNDLE", "CGO Bundle (Full)", 12000, "All services included"⟩], 12000) := by
  have hb : SERVICES.filter (fun s => s.sku == "CGO-BUNDLE") =
      [⟨"CGO-BUNDLE", "CGO Bundle (Full)", 12000, "All services included"⟩] := by decide
  simp [recommend_services, h, hb]

lemma recommend_services_no_bundle (ts : List String) (h : (allQualifyingSkus ts).length < 4) :
    recommend_services ts =
      (SERVICES.filter (fun s => (allQualifyingSkus ts).contains s.sku),
       ((SERVICES.filter (fun s => (allQualifyingSkus ts).contains s.sku)).map
         Service.price).sum) := by
  have h4 : ¬ 4 ≤ (allQualifyingSkus ts).length := by omega
  simp [recommend_services, h4]



/-! ### Claim theorems -/

/-- C1: for every transcript list, when at least 4 distinct skus qualify,
`recommend_services` returns exactly the bundle catalog row alone with total
12000 — no hypothesis about the sum of the qualifying entries' prices is
needed; when between 1 and 3 distinct skus qualify it returns exactly the
catalog entries whose sku qualifies, with total the sum of the selected
entries' prices.  `allQualifyingSkus` is duplicate-free, so its length is the
number of distinct qualifying skus. -/
theorem c1_bundle_threshold (ts : List String) :
    (4 ≤ (allQualifyingSkus ts).length →
      recommend_services ts =
        ([⟨"CGO-BUNDLE", "CGO Bundle (Full)", 12000, "All services included"⟩], 12000)) ∧
    (1 ≤ (allQualifyingSkus ts).length → (allQualifyingSkus ts).length ≤ 3 →
      (∀ s, s ∈ (recommend_services ts).1 ↔ s ∈ SERVICES ∧ s.sku ∈ allQualifyingSkus ts) ∧
      (recommend_services ts).2 = ((recommend_services ts).1.map Service.price).sum) ∧
    (allQualifyingSkus ts).Nodup := by
  refine ⟨fun h => recommend_services_bundle ts h, fun h1 h3 => ?_, allQualifyingSkus_nodup ts⟩
  have hlt : (allQualifyingSkus ts).length < 4 := by omega
  rw [recommend_services_no_bundle ts hlt]
  refine ⟨fun s => ?_, rfl⟩
  rw [List.mem_filter]
  constructor
  · rintro ⟨hs, hc⟩
    exact ⟨hs, List.elem_iff.mp hc⟩
  · rintro ⟨hs, hc⟩
    exact ⟨hs, List.elem_iff.mpr hc⟩

/-- Witness for C1: a transcript hitting 4 distinct skus yields the bundle
alone at 12000; one hitting 2 skus yields the sum of the selected prices. -/
theorem c1_bundle_threshold_witness :
    recommend_services
        ["crm data quality pipeline forecasting cold email deliverability inmail social"] =
      ([⟨"CGO-BUNDLE", "CGO Bundle (Full)", 12000, "All services included"⟩], 12000) ∧
    (recommend_services ["crm data quality pipeline forecasting"]).2 =
      ((recommend_services ["crm data quality pipeline forecasting"]).1.map
        Service.price).sum :=
  ⟨(c1_bundle_threshold _).1 (by decide),
   ((c1_bundle_threshold _).2.1 (by decide) (by decide)).2⟩

/-- C2 counterexample: in `the crm is fine` exactly one CRM indicator phrase
(`crm`) occurs, yet `CGO-CRM` qualifies — a single indicator hit does make the
sku qualify, because each matched indicator adds 2 to the score and the
threshold is 2. -/
theorem c2_single_hit_qualifies :
    (skuIndicators "CGO-CRM").countP
        (fun ind => hasSub ind.data (lowerChars "the crm is fine")) = 1 ∧
    "CGO-CRM" ∈ recommend_from_transcript "the crm is fine" := by decide

/-- C2 amended: indicator matching is case-insensitive substring matching; the
score is 2 per matched indicator, so a sku qualifies (score ≥ 2) exactly when
at least one of its indicator phrases occurs in the lowered transcript — one
hit suffices. -/
theorem c2_qualification_rule (t : String) (sku : String) :
    (sku ∈ recommend_from_transcript t ↔
      ∃ p ∈ PAIN_POINT_MAP, p.1 = sku ∧
        ∃ ind ∈ p.2, hasSub ind.data (lowerChars t) = true) ∧
    (∀ inds, skuScore (lowerChars t) inds =
      2 * inds.countP (fun ind => hasSub ind.data (lowerChars t))) ∧
    recommend_from_transcript "CRM Pipeline FORECASTING Data Quality" =
      recommend_from_transcript "crm pipeline forecasting data quality" :=
  ⟨mem_recommend_from_transcript t sku, fun inds => skuScore_eq _ inds, by decide⟩

/-- C3 counterexample: with every call succeeding except the product-catalog
lookup (step 1, HTTP 500), the run terminates in the Failed quote outcome —
an UpstreamError — instead of completing with the item skipped. -/
theorem c3_step1_failure_escalates :
    run_workflow envProductsFail "https://app.hubspot.com/contacts/21656838/record/0-3/555" =
      .ok (.quoteError (.httpError 500)) ∧
    (WRes.quoteError (.httpError 500)).isUpstreamError = true :=
  ⟨rfl, rfl⟩

/-- C3 amended: inside quote assembly only a sku with no resolved product id
is tolerated (skipped without consulting the line-item call); an HTTP failure
of the catalog lookup (step 1), of the quote creation (step 2), or of any
individual line-item creation or quote association (step 3) propagates out of
`create_quote_and_line_items` and surfaces as the Failed quote outcome of
`run_workflow` — shown generally for a step-1 failure and on otherwise
all-success concrete runs for a step-2 failure, a step-3 creation failure and
a step-3 association failure (the last three conjuncts). -/
theorem c3_quote_assembly_failure_policy :
    (∀ env portal did cn svcs e, fetch_products env = Except.error e →
      create_quote_and_line_items env portal did cn svcs = .error e) ∧
    (∀ env portal did cn svcs rows e,
      fetch_products env = .ok rows → env.createQuote = Except.error e →
      create_quote_and_line_items env portal did cn svcs = .error e) ∧
    (∀ (env : Env) portal did cn (svc : Service) rest rows q,
      fetch_products env = .ok rows → env.createQuote = .ok q →
      dictGet rows svc.sku = none →
      create_quote_and_line_items env portal did cn (svc :: rest) =
        create_quote_and_line_items env portal did cn rest) ∧
    (∀ (env : Env) portal did cn (svc : Service) rest rows q pid e,
      fetch_products env = .ok rows → env.createQuote = .ok q →
      dictGet rows svc.sku = some pid → env.createLineItem pid = Except.error e →
      create_quote_and_line_items env portal did cn (svc :: rest) = .error e) ∧
    (∀ (env : Env) portal did cn (svc : Service) rest rows q pid li e,
      fetch_products env = .ok rows → env.createQuote = .ok q →
      dictGet rows svc.sku = some pid → env.createLineItem pid = .ok li →
      env.assocLineItem li = Except.error e →
      create_quote_and_line_items env portal did cn (svc :: rest) = .error e) ∧
    (∀ (env : Env) portal url did d ts su pv s,
      ConfigOk env portal → parse_deal_url url = some (portal, did) →
      env.deal = .ok d → (∀ id, httpOnly (env.company id) = true) →
      (∀ id, httpOnly (env.contact id) = true) →
      fetch_fathom_transcripts env = .ok ts → ts ≠ [] →
      env.claudeSummary = .ok su → env.claudePreview = .ok pv →
      env.products = .error (.httpError s) →
      run_workflow env url = .ok (.quoteError (.httpError s))) ∧
    run_workflow envQuoteFail "https://app.hubspot.com/contacts/21656838/record/0-3/555" =
      .ok (.quoteError (.httpError 500)) ∧
    run_workflow envLineItemFail "https://app.hubspot.com/contacts/21656838/record/0-3/555" =
      .ok (.quoteError (.httpError 502)) ∧
    run_workflow envAssocFail "https://app.hubspot.com/contacts/21656838/record/0-3/555" =
      .ok (.quoteError (.httpError 503)) := by
  refine ⟨?_, ?_, ?_, ?_, ?_, ?_, rfl, rfl, rfl⟩
  · intro env portal did cn svcs e h
    simp [create_quote_and_line_items, h]
  · intro env portal did cn svcs rows e h1 h2
    simp [create_quote_and_line_items, h1, h2]
  · intro env portal did cn svc rest rows q h1 h2 h3
    simp [create_quote_and_line_items, h1, h2, lineItemLoop, h3]
  · intro env portal did cn svc rest rows q pid e h1 h2 h3 h4
    simp [create_quote_and_line_items, h1, h2, lineItemLoop, h3, h4]
  · intro env portal did cn svc rest rows q pid li e h1 h2 h3 h4 h5
    simp [create_quote_and_line_items, h1, h2, lineItemLoop, h3, h4, h5]
  · intro env portal url did d ts su pv s hcfg hp hdeal hco hct hts hne hsu hpv hprod
    obtain ⟨cn, hcn⟩ :=
      run_workflow_to_transcriptPhase env portal url did d hcfg hp hdeal hco hct
    rw [hcn]
    have hie : ts.isEmpty = false := by
      cases ts with
      | nil => exact absurd rfl hne
      | cons a l => rfl
    have hcreate : ∀ svcs, create_quote_and_line_items env portal did cn svcs =
        .error (.httpError s) := fun svcs => by
      simp [create_quote_and_line_items, fetch_products, hprod]
    simp [transcriptPhase, hts, hie, claudePhase, hsu, hpv, quotePhase, hcreate]

/-- Witness for C3 (amended): concrete instances of the propagation rules —
a failed catalog lookup propagates, and a service with an unresolved sku is
skipped. -/
theorem c3_quote_assembly_failure_policy_witness :
    create_quote_and_line_items envProductsFail "21656838" "555" "Acme" [] =
      .error (.httpError 500) ∧
    create_quote_and_line_items envBase "21656838" "555" "Acme"
        [⟨"CGO-UNKNOWN", "Unknown", 0, ""⟩] =
      create_quote_and_line_items envBase "21656838" "555" "Acme" [] :=
  ⟨c3_quote_assembly_failure_policy.1 envProductsFail "21656838" "555" "Acme" []
      (.httpError 500) rfl,
   c3_quote_assembly_failure_policy.2.2.1 envBase "21656838" "555" "Acme"
      ⟨"CGO-UNKNOWN", "Unknown", 0, ""⟩ []
      [("CGO-SALESOPS", "prod-salesops"), ("CGO-CRM", "prod-crm"),
       ("CGO-MKTOPS", "prod-mktops")] "q77" rfl rfl rfl⟩

/-- C4: whenever the transcript fetch yields zero transcripts — in particular
whenever listing the deal's meeting associations fails with an HTTP error,
which always yields the empty transcript list (final conjunct) — the run
terminates in the no-transcripts (PreconditionFailed) outcome, which is not an
UpstreamError; the company and contact call outcomes are arbitrary success or
HTTP-error behaviours. -/
theorem c4_zero_transcripts_precondition (env : Env) (portal url deal_id : String) (d : Deal)
    (hcfg : ConfigOk env portal)
    (hp : parse_deal_url url = some (portal, deal_id))
    (hdeal : env.deal = .ok d)
    (hco : ∀ id, httpOnly (env.company id) = true)
    (hct : ∀ id, httpOnly (env.contact id) = true)
    (hts : fetch_fathom_transcripts env = .ok []) :
    run_workflow env url = .ok .noTranscripts ∧
    WRes.noTranscripts.isPreconditionFailed = true ∧
    WRes.noTranscripts.isUpstreamError = false ∧
    (∀ (env' : Env) (s : Nat), env'.meetingAssoc = .error (.httpError s) →
      fetch_fathom_transcripts env' = .ok []) := by
  obtain ⟨cn, hcn⟩ :=
    run_workflow_to_transcriptPhase env portal url deal_id d hcfg hp hdeal hco hct
  refine ⟨?_, rfl, rfl, fun env' s h => fetch_fathom_assoc_http_fail env' s h⟩
  rw [hcn]
  simp [transcriptPhase, hts]

/-- Witness for C4: with the association listing failing (HTTP 404) the
concrete run ends in the no-transcripts outcome. -/
theorem c4_zero_transcripts_precondition_witness :
    run_workflow envNoTrans "https://app.hubspot.com/contacts/21656838/record/0-3/555" =
      .ok .noTranscripts :=
  (c4_zero_transcripts_precondition envNoTrans "21656838"
    "https://app.hubspot.com/contacts/21656838/record/0-3/555" "555"
    ⟨some "Acme Deal", ["c1"], ["p1"]⟩
    ⟨rfl, rfl, by decide, rfl⟩ (by decide) rfl (fun id => rfl) (fun id => rfl) rfl).1

/-- C5: under any upstream behaviour whatsoever (the oracle's call-outcome
fields are unconstrained, so the result does not depend on any network call),
an unparseable reference yields the invalid-URL ValidationError outcome, and a
parseable reference whose portal differs from the configured one yields the
portal-mismatch ValidationError outcome; neither is an UpstreamError. -/
theorem c5_validation_short_circuit (env : Env) (portal url : String)
    (hcfg : ConfigOk env portal) :
    (parse_deal_url url = none →
      run_workflow env url = .ok .invalidUrl ∧
      WRes.invalidUrl.isValidationError = true ∧
      WRes.invalidUrl.isUpstreamError = false) ∧
    (∀ up did, parse_deal_url url = some (up, did) → up ≠ portal →
      run_workflow env url = .ok (.portalMismatch up portal) ∧
      (WRes.portalMismatch up portal).isValidationError = true ∧
      (WRes.portalMismatch up portal).isUpstreamError = false) := by
  constructor
  · intro hnone
    rw [run_workflow_eq_core env portal url hcfg]
    exact ⟨by simp [run_core, hnone], rfl, rfl⟩
  · intro up did hsome hne
    rw [run_workflow_eq_core env portal url hcfg]
    have hbne : (up != portal) = true := by simpa using hne
    exact ⟨by simp [run_core, hsome, hbne], rfl, rfl⟩

/-- Witness for C5: a reference with no deal path yields the invalid-URL
outcome on a concrete oracle. -/
theorem c5_validation_short_circuit_witness :
    parse_deal_url "please quote this deal" = none ∧
    run_workflow envBase "please quote this deal" = .ok .invalidUrl :=
  ⟨by decide,
   ((c5_validation_short_circuit envBase "21656838" "please quote this deal"
      ⟨rfl, rfl, by decide, rfl⟩).1 (by decide)).1⟩

/-- C6 counterexample: a deal-fetch timeout (not an `HTTPError`) escapes
`run_workflow` as an exception — the invocation does not return a
WorkflowResult. -/
theorem c6_timeout_escapes :
    run_workflow envTimeout "https://app.hubspot.com/contacts/21656838/record/0-3/555" =
      .error PyExc.timeoutError :=
  rfl

/-- C6 amended: when every upstream call either succeeds or fails with an
`HTTPError` (the only exception class the workflow catches), every invocation
of `run_workflow` returns exactly one result; timeouts, connection failures
and malformed responses, modelled as non-HTTP exceptions, escape the run. -/
theorem c6_result_totality_http_only (env : Env) (url : String) (h : EnvHttpOnly env) :
    ∃ r, run_workflow env url = .ok r :=
  run_workflow_ok_of_httpOnly env url h

/-- Witness for C6 (amended): the all-success oracle satisfies `EnvHttpOnly`
and its run returns a result. -/
theorem c6_result_totality_http_only_witness :
    EnvHttpOnly envBase ∧
    ∃ r, run_workflow envBase "https://app.hubspot.com/contacts/21656838/record/0-3/555" =
      .ok r := by
  have h : EnvHttpOnly envBase := by
    refine ⟨rfl, fun _ => rfl, fun _ => rfl, rfl, fun m => ?_, rfl, rfl, rfl, rfl,
      fun _ => rfl, fun _ => rfl⟩
    by_cases hm : m = "m1" <;> simp [envBase, hm, httpOnly]
  exact ⟨h, c6_result_totality_http_only envBase
    "https://app.hubspot.com/contacts/21656838/record/0-3/555" h⟩

/-- C7 counterexample: in the successful end-to-end run over the two scenario
transcripts the service names come out in catalog order —
`Sales Operations Consulting` before `CRM Management` — not in the order the
claim states. -/
theorem c7_service_order :
    run_workflow envBase "https://app.hubspot.com/contacts/21656838/record/0-3/555" =
      .ok (.success "https://app.hubspot.com/contacts/21656838/record/0-115/q77" "Acme" 5000
        ["Sales Operations Consulting", "CRM Management"]) ∧
    (["Sales Operations Consulting", "CRM Management"] : List String) ≠
      ["CRM Management", "Sales Operations Consulting"] :=
  ⟨rfl, by decide⟩

/-- C7 amended: for a deal with two transcripts, each containing at least two
CRM-pain and at least two sales-pipeline indicator phrases (and no other
sku's indicators), the recommendation selects Sales Operations Consulting and
CRM Management with total 5000; the successful run returns success with
totalMonthly 5000, serviceNames `[Sales Operations Consulting, CRM
Management]` in catalog order, and a quote URL of the shape
`.../contacts/(tenant)/record/0-115/(quoteId)`. -/
theorem c7_end_to_end_scenario :
    (∀ t ∈ [fathomNote1, fathomNote2],
      2 ≤ (skuIndicators "CGO-CRM").countP
            (fun ind => hasSub ind.data (lowerChars t)) ∧
      2 ≤ (skuIndicators "CGO-SALESOPS").countP
            (fun ind => hasSub ind.data (lowerChars t))) ∧
    recommend_services [fathomNote1, fathomNote2] =
      ([⟨"CGO-SALESOPS", "Sales Operations Consulting", 3000,
          "Sales enablement, pipeline optimization, lead scoring"⟩,
        ⟨"CGO-CRM", "CRM Management", 2000,
          "Weekly hotfixes, data quality monitoring, ad-hoc reporting"⟩], 5000) ∧
    run_workflow envBase "https://app.hubspot.com/contacts/21656838/record/0-3/555" =
      .ok (.success "https://app.hubspot.com/contacts/21656838/record/0-115/q77" "Acme" 5000
        ["Sales Operations Consulting", "CRM Management"]) ∧
    "https://app.hubspot.com/contacts/21656838/record/0-115/q77" =
      "https://app.hubspot.com/contacts/" ++ "21656838" ++ "/record/0-115/" ++ "q77" :=
  ⟨by decide, by decide, rfl, rfl⟩

/-- C8: when exactly one id in a list of company (or contact) ids fails with
an HTTP error and every other id fetches successfully, the tolerant fetcher
returns a success (the phase does not fail) whose list omits the failing
record, keeps every other record in order, and has exactly N−1 entries. -/
theorem c8_tolerant_fetch_one_failure (env : Env) (l₁ l₂ : List String) (b : String)
    (rc : String → Company) (rt : String → Contact) (s₁ s₂ : Nat)
    (hc : ∀ id ∈ l₁ ++ l₂, env.company id = .ok (rc id))
    (ht : ∀ id ∈ l₁ ++ l₂, env.contact id = .ok (rt id))
    (hbc : env.company b = .error (.httpError s₁))
    (hbt : env.contact b = .error (.httpError s₂)) :
    fetch_companies env (l₁ ++ b :: l₂) = .ok ((l₁ ++ l₂).map rc) ∧
    fetch_contacts env (l₁ ++ b :: l₂) = .ok ((l₁ ++ l₂).map rt) ∧
    ((l₁ ++ l₂).map rc).length = (l₁ ++ b :: l₂).length - 1 ∧
    ((l₁ ++ l₂).map rt).length = (l₁ ++ b :: l₂).length - 1 := by
  refine ⟨fetch_companies_one_bad env rc b s₁ hbc l₁ l₂ hc,
          fetch_contacts_one_bad env rt b s₂ hbt l₁ l₂ ht, ?_, ?_⟩ <;>
    simp [List.length_append]

/-- Witness for C8: of the three ids `a`, `bad`, `c` only `bad` fails; both
fetchers return the two surviving records in order. -/
theorem c8_tolerant_fetch_one_failure_witness :
    fetch_companies envOneBad ["a", "bad", "c"] = .ok [⟨"a"⟩, ⟨"c"⟩] ∧
    fetch_contacts envOneBad ["a", "bad", "c"] = .ok [⟨"a"⟩, ⟨"c"⟩] := by
  have h := c8_tolerant_fetch_one_failure envOneBad ["a"] ["c"] "bad"
    (fun i => ⟨i⟩) (fun i => ⟨i⟩) 500 500
    (by intro id hid; simp at hid; rcases hid with rfl | rfl <;> rfl)
    (by intro id hid; simp at hid; rcases hid with rfl | rfl <;> rfl)
    rfl rfl
  exact ⟨h.1, h.2.1⟩

/-- C9: when no sku qualifies for the fetched (non-empty) transcript set, the
orchestrator falls back to the single default service `SERVICES[0]` and the
run succeeds with exactly that catalog entry and 3000 — that entry's own
price — as the monthly total. -/
theorem c9_no_qualifying_fallback (env : Env) (portal url deal_id : String) (d : Deal)
    (ts : List String) (su pv q : String) (rows : List (Option String × String))
    (hcfg : ConfigOk env portal)
    (hp : parse_deal_url url = some (portal, deal_id))
    (hdeal : env.deal = .ok d)
    (hco : ∀ id, httpOnly (env.company id) = true)
    (hct : ∀ id, httpOnly (env.contact id) = true)
    (hts : fetch_fathom_transcripts env = .ok ts)
    (hne : ts ≠ [])
    (hnoq : allQualifyingSkus ts = [])
    (hsu : env.claudeSummary = .ok su)
    (hpv : env.claudePreview = .ok pv)
    (hrows : env.products = .ok rows)
    (hq : env.createQuote = .ok q)
    (hli : ∀ p, ∃ li, env.createLineItem p = .ok li)
    (hla : ∀ li, env.assocLineItem li = .ok ()) :
    (∃ cn, run_workflow env url =
      .ok (.success ("https://app.hubspot.com/contacts/" ++ portal ++ "/record/0-115/" ++ q)
        cn 3000 [(SERVICES.headD default).name])) ∧
    (SERVICES.headD default).name = "Marketing Operations Consulting" ∧
    (SERVICES.headD default).price = 3000 := by
  refine ⟨?_, rfl, rfl⟩
  obtain ⟨cn, hcn⟩ :=
    run_workflow_to_transcriptPhase env portal url deal_id d hcfg hp hdeal hco hct
  refine ⟨cn, ?_⟩
  rw [hcn]
  have hie : ts.isEmpty = false := by
    cases ts with
    | nil => exact absurd rfl hne
    | cons a l => rfl
  have hrec := recommend_services_empty ts hnoq
  have hloop := lineItemLoop_all_ok env hli hla
    (rows.filterMap (fun r => r.1.map (fun sku => (sku, r.2)))) [SERVICES.head?.getD default]
  simp [transcriptPhase, hts, hie, hrec, claudePhase, hsu, hpv, quotePhase,
    create_quote_and_line_items, fetch_products, hrows, hq, hloop]

/-- Witness for C9: with transcripts carrying no indicator phrase, the
concrete run succeeds with the default service and total 3000. -/
theorem c9_no_qualifying_fallback_witness :
    ∃ cn, run_workflow envNoQual "https://app.hubspot.com/contacts/21656838/record/0-3/555" =
      .ok (.success
        ("https://app.hubspot.com/contacts/" ++ "21656838" ++ "/record/0-115/" ++ "q77")
        cn 3000 [(SERVICES.headD default).name]) :=
  (c9_no_qualifying_fallback envNoQual "21656838"
    "https://app.hubspot.com/contacts/21656838/record/0-3/555" "555"
    ⟨some "Acme Deal", ["c1"], ["p1"]⟩
    ["AI Meeting Summary: nothing of note", "AI Meeting Summary: nothing of note"]
    "summary html" "preview html" "q77"
    [(some "CGO-SALESOPS", "prod-salesops"), (some "CGO-CRM", "prod-crm"),
     (some "CGO-MKTOPS", "prod-mktops")]
    ⟨rfl, rfl, by decide, rfl⟩ (by decide) rfl (fun id => rfl) (fun id => rfl)
    rfl (by decide) (by decide) rfl rfl rfl rfl
    (fun p => ⟨"li-" ++ p, rfl⟩) (fun li => rfl)).1

/-- C10: for every transcript list the selection is either the bundle row
alone with total 12000 (the bundle's fixed price) or a list of non-bundle
rows whose prices sum exactly to the total; and the bundle sku is never
produced by indicator matching. -/
theorem c10_selection_invariant (ts : List String) :
    (((recommend_services ts).1 =
        [⟨"CGO-BUNDLE", "CGO Bundle (Full)", 12000, "All services included"⟩] ∧
      (recommend_services ts).2 = 12000) ∨
     ((∀ s ∈ (recommend_services ts).1, s.sku ≠ "CGO-BUNDLE") ∧
      (recommend_services ts).2 = ((recommend_services ts).1.map Service.price).sum)) ∧
    ∀ t, "CGO-BUNDLE" ∉ recommend_from_transcript t := by
  refine ⟨?_, fun t => not_bundle_mem_recommend t⟩
  by_cases h : 4 ≤ (allQualifyingSkus ts).length
  · left
    rw [recommend_services_bundle ts h]
    exact ⟨rfl, rfl⟩
  · right
    have hlt : (allQualifyingSkus ts).length < 4 := by omega
    rw [recommend_services_no_bundle ts hlt]
    refine ⟨?_, rfl⟩
    intro s hs hsku
    rw [List.mem_filter] at hs
    have hmem := List.elem_iff.mp hs.2
    rw [hsku] at hmem
    exact not_bundle_mem_allQualifyingSkus ts hmem
